import Mathlib

/-!
Shallow embedding of `src/pages/index.jsx` (the single-page climate-podcast
infographic): CSV row normalization, the ghost-row filter of `load`, the
filter/sort/truncation chain behind `filtered` and `limited`, and the
`MultiSelect` widget's provisional/committed selection protocol.

Machine numbers are modelled as `Int`/`ℚ`; JS `undefined` for a missing CSV
field is `Option.none`; fallible coercions return `Option`.
-/

namespace ClimatePodcasts

/-! ### JavaScript string and number primitives -/

/-- Check whether the second character list occurs at the very start of the first. -/
def startsWithList : List Char → List Char → Bool
  | _, [] => true
  | [], _ :: _ => false
  | c :: cs, p :: ps => c = p && startsWithList cs ps

/-- Model of JavaScript `String.prototype.includes` on character lists: the
pattern occurs contiguously somewhere in the haystack. -/
def containsList (pat : List Char) : List Char → Bool
  | [] => pat.isEmpty
  | c :: cs => startsWithList (c :: cs) pat || containsList pat cs

/-- Model of JavaScript `hay.includes(pat)`. -/
def strIncludes (hay pat : String) : Bool :=
  containsList pat.data hay.data

/-- Model of JavaScript `String.prototype.trim`: strip leading and trailing
whitespace. -/
def jsTrim (s : String) : String :=
  ⟨((s.data.dropWhile Char.isWhitespace).reverse.dropWhile Char.isWhitespace).reverse⟩

/-- Model of JavaScript `String.prototype.toLowerCase` for the ASCII data this
application carries. -/
def jsLower (s : String) : String :=
  ⟨s.data.map Char.toLower⟩

/-- Model of JavaScript `arr.join(",")`. -/
def joinComma : List String → String
  | [] => ""
  | [s] => s
  | s :: rest => s ++ "," ++ joinComma rest

/-- Numeric value of a most-significant-first list of decimal digit characters. -/
def digitsVal (cs : List Char) : Nat :=
  cs.foldl (fun acc c => 10 * acc + (c.toNat - '0'.toNat)) 0

/-- A finite decimal number `num / 10 ^ scale`. Decimal literals — the only
numeric shape this application's CSV scores carry — coerce to values of this
exact form, kept unnormalized so every later computation is plain integer
arithmetic. -/
structure DecNum where
  num : Int
  scale : Nat
deriving DecidableEq, Repr

/-- Model of JavaScript `Number(string)` restricted to plain decimal literals
(optional sign, integer part, optional fractional part). The empty or
all-whitespace string coerces to `0`, exactly as in JS. `none` stands for any
coercion whose JS result is `NaN` or non-finite; both are rejected by the
`isFinite` guard in `normalizeRow`, so conflating them preserves behaviour. -/
def jsNumber (s : String) : Option DecNum :=
  let t := jsTrim s
  if t = "" then some ⟨0, 0⟩
  else
    let signBody : Int × List Char :=
      match t.data with
      | '-' :: cs => (-1, cs)
      | '+' :: cs => (1, cs)
      | cs => (1, cs)
    let ip := signBody.2.takeWhile (· ≠ '.')
    match signBody.2.dropWhile (· ≠ '.') with
    | [] =>
        if ip ≠ [] ∧ ip.all Char.isDigit then some ⟨signBody.1 * digitsVal ip, 0⟩
        else none
    | _ :: fp =>
        if (ip ≠ [] ∨ fp ≠ []) ∧ ip.all Char.isDigit ∧ fp.all Char.isDigit then
          some ⟨signBody.1 * (digitsVal ip * 10 ^ fp.length + digitsVal fp), fp.length⟩
        else none

/-- Model of JavaScript `Math.round` on a decimal value: `⌊x + 1/2⌋`, computed
as the floor division `⌊(2·num + 10^scale) / (2·10^scale)⌋`. -/
def jsRound (d : DecNum) : Int :=
  Int.fdiv (2 * d.num + 10 ^ d.scale) (2 * 10 ^ d.scale)

/-- JavaScript `a || b || ... || ""` over possibly-missing string fields: the
first present and non-empty value (`undefined` and `""` are both falsy), else
the empty string. -/
def orChain : List (Option String) → String
  | [] => ""
  | some s :: rest => if s = "" then orChain rest else s
  | none :: rest => orChain rest

/-- JavaScript `a ?? b ?? ...` over possibly-missing string fields: the first
value that is present at all, even when it is the empty string. -/
def coalesce : List (Option String) → Option String
  | [] => none
  | some s :: _ => some s
  | none :: rest => coalesce rest

/-- Gregorian leap-year test. -/
def isLeap (y : Int) : Bool :=
  y % 4 = 0 && (y % 100 ≠ 0 || y % 400 = 0)

/-- Number of days in the given month of the given year. -/
def daysInMonth (y : Int) (m : Nat) : Nat :=
  if m = 2 then (if isLeap y then 29 else 28)
  else if m = 4 ∨ m = 6 ∨ m = 9 ∨ m = 11 then 30
  else 31

/-- Days from the Unix epoch (1970-01-01) to the given Gregorian civil date;
negative for earlier dates. Standard civil-from-days arithmetic. -/
def daysFromCivil (y : Int) (m d : Nat) : Int :=
  let yAdj : Int := if m ≤ 2 then y - 1 else y
  let era : Int := (if 0 ≤ yAdj then yAdj else yAdj - 399) / 400
  let yoe : Int := yAdj - era * 400
  let mp : Int := ((m : Int) + 9) % 12
  let doy : Int := (153 * mp + 2) / 5 + (d : Int) - 1
  let doe : Int := yoe * 365 + yoe / 4 - yoe / 100 + doy
  era * 146097 + doe - 719468

/-- Model of `parseDateSafe` (`new Date(v)` guarded by `isNaN`) for the ISO
`YYYY-MM-DD` strings this application's data uses: the UTC timestamp in
milliseconds, or `none` (JS `Invalid Date`, hence `null`) for any string not of
that calendar-valid shape. -/
def parseDateSafe (v : String) : Option Int :=
  match v.data with
  | [y1, y2, y3, y4, '-', m1, m2, '-', d1, d2] =>
      if ([y1, y2, y3, y4, m1, m2, d1, d2]).all Char.isDigit then
        let y : Int := digitsVal [y1, y2, y3, y4]
        let m : Nat := digitsVal [m1, m2]
        let d : Nat := digitsVal [d1, d2]
        if 1 ≤ m ∧ m ≤ 12 ∧ 1 ≤ d ∧ d ≤ daysInMonth y m then
          some (daysFromCivil y m d * 86400000)
        else none
      else none
  | _ => none

/-- Split a character list into the segments between separator characters
(JavaScript `split` keeps empty segments; the callers below discard them). -/
def splitListOn (p : Char → Bool) (cs : List Char) : List (List Char) :=
  cs.foldr
    (fun c acc =>
      if p c then [] :: acc
      else
        match acc with
        | [] => [[c]]
        | g :: gs => (c :: g) :: gs)
    [[]]

/-- Model of `tagsStr.split(/[,;]+/).map((t) => t.trim()).filter(Boolean)`:
split on commas and semicolons, trim, drop empties (so whether separator runs
are collapsed is unobservable). -/
def splitTags (s : String) : List String :=
  (((splitListOn fun c => c = ',' || c = ';') s.data).map fun g => jsTrim ⟨g⟩).filter (· ≠ "")

/-! ### The data model and the row normalizer -/

/-- A loosely-typed record produced by `Papa.parse(text, { header: true })`:
every recognized header alias is a possibly-missing string field (`none` is JS
`undefined` for an absent column). Only the keys `normalizeRow` reads are
modelled. -/
structure CsvRecord where
  series_name : Option String := none
  Series : Option String := none
  series : Option String := none
  episode_title : Option String := none
  title : Option String := none
  pub_date_iso : Option String := none
  date : Option String := none
  published : Option String := none
  tags : Option String := none
  Tags : Option String := none
  score_general : Option String := none
  general : Option String := none
  general_score : Option String := none
  score_advanced : Option String := none
  advanced : Option String := none
  advanced_score : Option String := none
  summary_general : Option String := none
  summaryGeneral : Option String := none
  summary_advanced : Option String := none
  summaryAdvanced : Option String := none
  summary : Option String := none
  Summary : Option String := none
  description : Option String := none
  url : Option String := none
  link : Option String := none
  href : Option String := none
  episode_url : Option String := none
deriving DecidableEq, Repr

/-- The canonical episode record produced by `normalizeRow`. Dates are UTC
millisecond timestamps (`dateObj` is `none` when `dateRaw` is unparseable). -/
structure EpisodeRecord where
  series : String
  title : String
  dateRaw : String
  dateObj : Option Int
  tags : List String
  scoreGen : Option Int
  scoreAdv : Option Int
  summary : String
  summaryGeneral : String
  summaryAdvanced : String
  url : String
deriving DecidableEq, Repr

/-- JavaScript `Number` applied to the result of a `??` chain: a missing value
(JS `undefined`) coerces to `NaN`, a present string is parsed as a decimal
literal. -/
def jsNumberOpt : Option String → Option DecNum
  | none => none
  | some s => jsNumber s

/-- Score normalization from `normalizeRow`:
`isFinite(sg) && sg >= 1 && sg <= 5 ? Math.round(sg) : null`. The bound
`1 ≤ num / 10^scale` is written `10^scale ≤ num`, and `num / 10^scale ≤ 5` is
written `num ≤ 5 * 10^scale`. -/
def normScore (v : Option String) : Option Int :=
  match jsNumberOpt v with
  | none => none
  | some d =>
      if (10 : Int) ^ d.scale ≤ d.num ∧ d.num ≤ 5 * 10 ^ d.scale then some (jsRound d)
      else none

/-- Model of `normalizeRow`, field for field from the source. -/
def normalizeRow (r : CsvRecord) : EpisodeRecord :=
  let series := jsTrim (orChain [r.series_name, r.Series, r.series])
  let title := jsTrim (orChain [r.episode_title, r.title])
  let dateRaw := jsTrim (orChain [r.pub_date_iso, r.date, r.published])
  let dateObj := parseDateSafe dateRaw
  let tagsStr := orChain [r.tags, r.Tags]
  let tags := splitTags tagsStr
  let scoreGen := normScore (coalesce [r.score_general, r.general, r.general_score])
  let scoreAdv := normScore (coalesce [r.score_advanced, r.advanced, r.advanced_score])
  let summaryGeneral := jsTrim (orChain [r.summary_general, r.summaryGeneral])
  let summaryAdvanced := jsTrim (orChain [r.summary_advanced, r.summaryAdvanced])
  let summary :=
    jsTrim
      (if summaryGeneral ≠ "" then summaryGeneral
       else orChain [r.summary, r.Summary, r.description])
  let url := jsTrim (orChain [r.url, r.link, r.href, r.episode_url])
  { series, title, dateRaw, dateObj, tags, scoreGen, scoreAdv,
    summary, summaryGeneral, summaryAdvanced, url }

/-- The ghost-row filter applied in `load`:
`(r.series && r.series.length) || (r.title && r.title.length) || (r.url && r.url.length)`. -/
def keepRow (r : EpisodeRecord) : Bool :=
  !r.series.isEmpty || !r.title.isEmpty || !r.url.isEmpty

/-- The normalize-then-filter pipeline applied to the parsed CSV records in
`load`. -/
def normalizedRows (recs : List CsvRecord) : List EpisodeRecord :=
  (recs.map normalizeRow).filter keepRow

/-! ### The loader and its failure path -/

/-- Outcome of `fetch("/episodes.csv", { cache: "no-store" })`. -/
inductive FetchOutcome where
  | success (body : String)
  | httpError (status : Nat)
  | networkError
deriving DecidableEq

/-- Result of one run of `load`: either the row list was installed together
with an optional banner message, or `load` itself threw. -/
inductive LoadResult where
  | ok (rows : List EpisodeRecord) (banner : Option String)
  | threw (jsErrorName : String)
deriving DecidableEq

/-- The lexical binding for the identifier `text` visible inside the `catch`
block of `load`. The only declaration of `text` in the file is
`const text = await res.text()` inside the `try` block; a `const` binding is
scoped to its enclosing block, which does not include the `catch` block, and no
enclosing scope (component or module) declares `text`. Hence no binding. -/
def catchScopeText : Option String := none

/-- Model of `load`, parameterized by the CSV parser (`Papa.parse` with
`header: true`), which maps fetched text to loosely-typed records. On a 2xx
response the body is parsed and normalized and no banner is set. On any fetch
failure (non-2xx status or network error), control reaches the `catch` block,
whose first statement after the `console.warn` evaluates
`Papa.parse(text, ...)`; referencing the unbound identifier `text` throws a
`ReferenceError`, so the state updates that follow are never executed. -/
def load (parseCsv : String → List CsvRecord) : FetchOutcome → LoadResult
  | .success body => .ok (normalizedRows (parseCsv body)) none
  | .httpError _ =>
      match catchScopeText with
      | some t =>
          .ok (normalizedRows (parseCsv t))
            (some "Using built-in sample data (episodes.csv not found).")
      | none => .threw "ReferenceError"
  | .networkError =>
      match catchScopeText with
      | some t =>
          .ok (normalizedRows (parseCsv t))
            (some "Using built-in sample data (episodes.csv not found).")
      | none => .threw "ReferenceError"

/-! ### The filter, sort and truncation chain -/

/-- The mutable filter state read by the `filtered` memo (the max-results cap
is kept separate, as in the source, and consumed only by `limited`). -/
structure FilterState where
  selectedSeries : List String
  selectedTags : List String
  last30Only : Bool
  search : String
deriving DecidableEq, Repr

/-- Recency predicate from `filtered`: `r.dateObj && r.dateObj >= cutoff`. -/
def passesLast30 (cutoff : Int) (r : EpisodeRecord) : Bool :=
  match r.dateObj with
  | some t => cutoff ≤ t
  | none => false

/-- Free-text predicate from `filtered`, for an already trimmed and lowercased
query: case-insensitive substring match against title, series, the
comma-joined tags, or the summary. -/
def matchesSearch (q : String) (r : EpisodeRecord) : Bool :=
  strIncludes (jsLower r.title) q ||
  strIncludes (jsLower r.series) q ||
  strIncludes (jsLower (joinComma r.tags)) q ||
  strIncludes (jsLower r.summary) q

/-- Stage 1: `if (selectedSeries.length) out = out.filter((r) => selectedSeries.includes(r.series))`. -/
def seriesStage (sel : List String) (l : List EpisodeRecord) : List EpisodeRecord :=
  if sel.isEmpty then l else l.filter fun r => sel.contains r.series

/-- Stage 2: `if (selectedTags.length) out = out.filter((r) => r.tags.some((t) => selectedTags.includes(t)))`. -/
def tagsStage (sel : List String) (l : List EpisodeRecord) : List EpisodeRecord :=
  if sel.isEmpty then l else l.filter fun r => r.tags.any sel.contains

/-- Stage 3: `if (last30Only) out = out.filter((r) => r.dateObj && r.dateObj >= cutoff)`. -/
def recencyStage (flag : Bool) (cutoff : Int) (l : List EpisodeRecord) : List EpisodeRecord :=
  if flag then l.filter (passesLast30 cutoff) else l

/-- Stage 4: `if (search.trim()) { const q = search.trim().toLowerCase(); out = out.filter(...) }`. -/
def searchStage (search : String) (l : List EpisodeRecord) : List EpisodeRecord :=
  if jsTrim search = "" then l else l.filter (matchesSearch (jsLower (jsTrim search)))

/-- The four filter stages of `filtered`, in source order, before sorting. -/
def filterStages (fs : FilterState) (cutoff : Int) (rows : List EpisodeRecord) :
    List EpisodeRecord :=
  searchStage fs.search
    (recencyStage fs.last30Only cutoff
      (tagsStage fs.selectedTags
        (seriesStage fs.selectedSeries rows)))

/-- Timestamp used by the sort comparator: `a.dateObj ? a.dateObj.getTime() : 0`. -/
def sortTime (r : EpisodeRecord) : Int :=
  r.dateObj.getD 0

/-- Lexicographic character-list comparison, our model of
`String.prototype.localeCompare` returning a negative value. -/
def charListLt : List Char → List Char → Bool
  | [], [] => false
  | [], _ :: _ => true
  | _ :: _, [] => false
  | a :: as, b :: bs => if a = b then charListLt as bs else decide (a < b)

/-- Model of `x.localeCompare(y) < 0`. -/
def localeLt (x y : String) : Bool :=
  charListLt x.data y.data

/-- The total preorder realized by the comparator in `filtered`: timestamp
descending (missing dates count as timestamp 0), then series ascending, then
title ascending. `rowLE a b` holds exactly when the comparator would put `a`
at or before `b`. -/
def rowLE (a b : EpisodeRecord) : Prop :=
  sortTime b < sortTime a ∨
    (sortTime b = sortTime a ∧
      (localeLt a.series b.series = true ∨
        (a.series = b.series ∧ localeLt b.title a.title = false)))

instance : DecidableRel rowLE := fun a b => by
  unfold rowLE
  infer_instance

/-- The sort at the end of `filtered`: `[...out].sort(comparator)`.
JavaScript `Array.prototype.sort` is stable, and a stable sort by a total
preorder has a unique result, which insertion sort realizes. -/
def sortRows (rows : List EpisodeRecord) : List EpisodeRecord :=
  List.insertionSort rowLE rows

/-- The full `filtered` memo: filter stages, then sort. -/
def filtered (fs : FilterState) (cutoff : Int) (rows : List EpisodeRecord) :
    List EpisodeRecord :=
  sortRows (filterStages fs cutoff rows)

/-- The `limited` memo:
`!maxResults || maxResults === -1 ? filtered : filtered.slice(0, maxResults)`.
The `slice(0, m)` of JS keeps the first `m` elements for `m ≥ 0` and, for
negative `m`, counts the end offset from the end of the array. -/
def limited (maxResults : Int) (l : List EpisodeRecord) : List EpisodeRecord :=
  if maxResults = 0 ∨ maxResults = -1 then l
  else if 0 ≤ maxResults then l.take maxResults.toNat
  else l.take ((l.length : Int) + maxResults).toNat

/-! ### The MultiSelect widget -/

/-- State of one `MultiSelect` instance: its three `useState` hooks plus the
externally owned committed selection (`selected`, written only through
`onChange`). -/
structure MSState where
  isOpen : Bool
  query : String
  tempSelected : List String
  selected : List String
deriving DecidableEq, Repr

/-- The user interactions the widget reacts to. `clearClick` is the Clear
button (`clearAll(false)`), `applyClick` the Apply button
(`applyChanges(false)`), `doneClick` the Done button (`applyChanges(true)`). -/
inductive MSEvent where
  | triggerClick
  | setQuery (q : String)
  | toggle (item : String)
  | clearClick
  | applyClick
  | doneClick
  | outsideClick
  | escapeKey
deriving DecidableEq

/-- JavaScript `Array.from(new Set(xs))`: first occurrences, in order.
Implemented with an accumulator of already-seen elements. -/
def dedupFirstAux (seen : List String) : List String → List String
  | [] => []
  | x :: xs =>
      if seen.contains x then dedupFirstAux seen xs
      else x :: dedupFirstAux (x :: seen) xs

/-- JavaScript `Array.from(new Set(xs))`. -/
def dedupFirst (xs : List String) : List String :=
  dedupFirstAux [] xs

/-- Model of `toggle(item)`: build `new Set(tempSelected)`, delete the item if
present, add it (at the end) if absent, and read the set back off in insertion
order. -/
def jsSetToggle (ts : List String) (item : String) : List String :=
  let d := dedupFirst ts
  if d.contains item then d.filter (· ≠ item) else d ++ [item]

/-- One step of the widget. The menu's own controls (query box, checkboxes,
Clear/Apply/Done) are rendered only while the menu is open, so their events
are no-ops on a closed widget; the document-level outside-click and Escape
listeners are installed for the component's whole lifetime. -/
def msStep (s : MSState) : MSEvent → MSState
  | .triggerClick =>
      if s.isOpen then { s with isOpen := false }
      else { s with tempSelected := s.selected, isOpen := true }
  | .setQuery q => if s.isOpen then { s with query := q } else s
  | .toggle item =>
      if s.isOpen then { s with tempSelected := jsSetToggle s.tempSelected item } else s
  | .clearClick => if s.isOpen then { s with tempSelected := [], selected := [] } else s
  | .applyClick => if s.isOpen then { s with selected := s.tempSelected } else s
  | .doneClick =>
      if s.isOpen then { s with selected := s.tempSelected, isOpen := false } else s
  | .outsideClick => { s with isOpen := false }
  | .escapeKey => { s with isOpen := false }

/-- Run a sequence of events. -/
def msRun (s : MSState) (es : List MSEvent) : MSState :=
  es.foldl msStep s

/-- A freshly mounted widget whose owner holds committed selection `sel`
(`useState(false)`, `useState("")`, `useState([])`). -/
def msInitial (sel : List String) : MSState :=
  { isOpen := false, query := "", tempSelected := [], selected := sel }

/-! ### The embedded fallback dataset (`SAMPLE_DATA`)

The four records below transcribe `Papa.parse(SAMPLE_DATA, { header: true,
skipEmptyLines: true })`: the header row names the eight columns
`series_name, episode_title, pub_date_iso, tags, score_general,
score_advanced, summary, url`, quoted CSV fields lose their quotes, and the
blank lines produced by the doubled newlines in the template literal are
skipped. -/

/-- Row 1 of `SAMPLE_DATA` (Cleaning Up). -/
def sampleRec1 : CsvRecord :=
  { series_name := some "Cleaning Up"
    episode_title := some "Nuclear's Next Wave"
    pub_date_iso := some "2025-07-26"
    tags := some "nuclear; policy"
    score_general := some "4"
    score_advanced := some "5"
    summary := some "A conversation about advanced nuclear and timelines."
    url := some "https://example.com/ep1" }

/-- Row 2 of `SAMPLE_DATA` (Climate One). -/
def sampleRec2 : CsvRecord :=
  { series_name := some "Climate One"
    episode_title := some "Insurance in the Hot Zone"
    pub_date_iso := some "2025-08-10"
    tags := some "insurance, risk"
    score_general := some "5"
    score_advanced := some "4"
    summary := some "Why insurers are retreating; what it means for homeowners."
    url := some "https://example.com/ep2" }

/-- Row 3 of `SAMPLE_DATA` (Volts). -/
def sampleRec3 : CsvRecord :=
  { series_name := some "Volts"
    episode_title := some "Grid nerd out: HVDC"
    pub_date_iso := some "2025-08-20"
    tags := some "grid, hvdc, transmission"
    score_general := some "5"
    score_advanced := some "5"
    summary := some "A deep dive on HVDC for a renewables-heavy grid."
    url := some "https://example.com/ep3" }

/-- Row 4 of `SAMPLE_DATA` (Drilled). -/
def sampleRec4 : CsvRecord :=
  { series_name := some "Drilled"
    episode_title := some "Litigation Update: 2025"
    pub_date_iso := some "2025-08-05"
    tags := some "litigation; attribution"
    score_general := some "3"
    score_advanced := some "5"
    summary := some "Roundup of major climate lawsuits and what to watch."
    url := some "https://example.com/ep4" }

/-- The parsed fallback dataset. -/
def sampleRecords : List CsvRecord :=
  [sampleRec1, sampleRec2, sampleRec3, sampleRec4]

/-- The fallback dataset after normalization and ghost-row filtering. -/
def sampleRows : List EpisodeRecord :=
  normalizedRows sampleRecords

/-- Filter state with only a free-text query set (all other filters at their
initial values). -/
def searchOnly (q : String) : FilterState :=
  { selectedSeries := [], selectedTags := [], last30Only := false, search := q }

/-! ### Concrete inputs used to settle the sorting claim -/

/-- A CSV record whose publication date lies before the Unix epoch, so its
parsed timestamp is negative. -/
def preEpochRec : CsvRecord :=
  { series_name := some "Apollo Review"
    episode_title := some "Archive tape"
    pub_date_iso := some "1969-12-31" }

/-- A CSV record with no date column at all, so its parsed date is `none`. -/
def undatedRec : CsvRecord :=
  { series_name := some "Beta Cast"
    episode_title := some "No date given" }

/-- Property asserted by the sorting claim for a sorted list: every row whose
parsed date is missing comes after every row that has one — once an undated
row appears, only undated rows follow. -/
def undatedAtBottom : List EpisodeRecord → Bool
  | [] => true
  | r :: rest =>
      if r.dateObj.isNone then rest.all fun x => x.dateObj.isNone
      else undatedAtBottom rest

/-! ### Concrete inputs used to instantiate hypotheses -/

/-- A record whose score fields are non-numeric and whose date text is not a
parseable date. -/
def badRec : CsvRecord :=
  { score_general := some "abc"
    score_advanced := some "n/a"
    pub_date_iso := some "sometime soon" }

/-- A record whose first score alias is present but empty while a later alias
holds a valid score. -/
def emptyThenValidScoreRec : CsvRecord :=
  { score_general := some ""
    general := some "4" }

/-- A record whose only score information sits in the shorthand alias. -/
def validAliasScoreRec : CsvRecord :=
  { general := some "4" }

/-- A record whose first series alias is present but empty while the
capitalized alias holds a value. -/
def emptyThenValidSeriesRec : CsvRecord :=
  { series_name := some ""
    Series := some "Volts" }

/-! ### Order facts about the sort comparator -/

theorem charListLt_irrefl : ∀ a, charListLt a a = false
  | [] => rfl
  | c :: cs => by simp [charListLt, charListLt_irrefl cs]

theorem charListLt_trans :
    ∀ {a b c : List Char}, charListLt a b = true → charListLt b c = true →
      charListLt a c = true
  | a, [], _, hab, _ => by
      cases a <;> simp [charListLt] at hab
  | _, _ :: _, [], _, hbc => by
      simp [charListLt] at hbc
  | [], _ :: _, _ :: _, _, _ => by
      simp [charListLt]
  | x :: xs, y :: ys, z :: zs, hab, hbc => by
      simp only [charListLt] at hab hbc ⊢
      by_cases hxy : x = y
      · subst hxy
        rw [if_pos rfl] at hab
        by_cases hxz : x = z
        · subst hxz
          rw [if_pos rfl] at hbc ⊢
          exact charListLt_trans hab hbc
        · rw [if_neg hxz] at hbc ⊢
          exact hbc
      · rw [if_neg hxy] at hab
        have hxyl : x < y := by simpa using hab
        by_cases hyz : y = z
        · subst hyz
          rw [if_neg hxy]
          simpa using hxyl
        · rw [if_neg hyz] at hbc
          have hyzl : y < z := by simpa using hbc
          have hxzl : x < z := lt_trans hxyl hyzl
          rw [if_neg (ne_of_lt hxzl)]
          simpa using hxzl

theorem charListLt_trichotomy :
    ∀ a b : List Char, charListLt a b = true ∨ a = b ∨ charListLt b a = true
  | [], [] => Or.inr (Or.inl rfl)
  | [], _ :: _ => Or.inl (by simp [charListLt])
  | _ :: _, [] => Or.inr (Or.inr (by simp [charListLt]))
  | x :: xs, y :: ys => by
      rcases eq_or_ne x y with h | h
      · subst h
        rcases charListLt_trichotomy xs ys with h1 | h1 | h1
        · exact Or.inl (by simp [charListLt, h1])
        · exact Or.inr (Or.inl (by simp [h1]))
        · exact Or.inr (Or.inr (by simp [charListLt, h1]))
      · rcases lt_or_gt_of_ne h with hlt | hgt
        · exact Or.inl (by simp [charListLt, h, hlt])
        · exact Or.inr (Or.inr (by simp [charListLt, Ne.symm h, hgt]))

theorem charListLt_asymm {a b : List Char} (h : charListLt a b = true) :
    charListLt b a = false := by
  by_contra hc
  have hba : charListLt b a = true := by
    cases hh : charListLt b a
    · exact absurd hh hc
    · rfl
  have : charListLt a a = true := charListLt_trans h hba
  simp [charListLt_irrefl] at this

theorem localeLt_trans {x y z : String} (h1 : localeLt x y = true) (h2 : localeLt y z = true) :
    localeLt x z = true :=
  charListLt_trans h1 h2

theorem localeLt_trichotomy (x y : String) :
    localeLt x y = true ∨ x = y ∨ localeLt y x = true := by
  rcases charListLt_trichotomy x.data y.data with h | h | h
  · exact Or.inl h
  · refine Or.inr (Or.inl ?_)
    cases x
    cases y
    exact congrArg String.mk h
  · exact Or.inr (Or.inr h)

theorem localeLt_asymm {x y : String} (h : localeLt x y = true) : localeLt y x = false :=
  charListLt_asymm h

theorem localeLt_irrefl (x : String) : localeLt x x = false :=
  charListLt_irrefl x.data

theorem localeLt_notlt_trans {x y z : String} (h1 : localeLt x y = false)
    (h2 : localeLt y z = false) : localeLt x z = false := by
  rcases localeLt_trichotomy x z with h | h | h
  · exfalso
    rcases localeLt_trichotomy x y with hxy | hxy | hxy
    · simp [hxy] at h1
    · subst hxy
      simp [h] at h2
    · have := localeLt_trans hxy h
      simp [this] at h2
  · subst h
    exact localeLt_irrefl x
  · exact localeLt_asymm h

theorem rowLE_total : IsTotal EpisodeRecord rowLE := by
  constructor
  intro a b
  unfold rowLE
  rcases lt_trichotomy (sortTime b) (sortTime a) with h | h | h
  · exact Or.inl (Or.inl h)
  · rcases localeLt_trichotomy a.series b.series with hs | hs | hs
    · exact Or.inl (Or.inr ⟨h, Or.inl hs⟩)
    · rcases localeLt_trichotomy a.title b.title with ht | ht | ht
      · exact Or.inl (Or.inr ⟨h, Or.inr ⟨hs, localeLt_asymm ht⟩⟩)
      · exact Or.inl (Or.inr ⟨h, Or.inr ⟨hs, by rw [ht]; exact localeLt_irrefl _⟩⟩)
      · exact Or.inr (Or.inr ⟨h.symm, Or.inr ⟨hs.symm, localeLt_asymm ht⟩⟩)
    · exact Or.inr (Or.inr ⟨h.symm, Or.inl hs⟩)
  · exact Or.inr (Or.inl h)

theorem rowLE_trans : IsTrans EpisodeRecord rowLE := by
  constructor
  intro a b c hab hbc
  unfold rowLE at hab hbc ⊢
  rcases hab with h1 | ⟨h1, hs1⟩
  · rcases hbc with h2 | ⟨h2, _⟩
    · exact Or.inl (lt_trans h2 h1)
    · exact Or.inl (h2 ▸ h1)
  · rcases hbc with h2 | ⟨h2, hs2⟩
    · exact Or.inl (h1 ▸ h2)
    · refine Or.inr ⟨h2.trans h1, ?_⟩
      rcases hs1 with hl1 | ⟨he1, ht1⟩
      · rcases hs2 with hl2 | ⟨he2, _⟩
        · exact Or.inl (localeLt_trans hl1 hl2)
        · exact Or.inl (he2 ▸ hl1)
      · rcases hs2 with hl2 | ⟨he2, ht2⟩
        · exact Or.inl (he1 ▸ hl2)
        · exact Or.inr ⟨he1.trans he2, localeLt_notlt_trans ht2 ht1⟩

/-! ### Sort and filter-stage lemmas -/

theorem sortRows_sorted (l : List EpisodeRecord) : List.Sorted rowLE (sortRows l) := by
  haveI := rowLE_total
  haveI := rowLE_trans
  exact List.sorted_insertionSort rowLE l

theorem sortRows_perm (l : List EpisodeRecord) : List.Perm (sortRows l) l :=
  List.perm_insertionSort rowLE l

theorem mem_sortRows {l : List EpisodeRecord} {r : EpisodeRecord} :
    r ∈ sortRows l ↔ r ∈ l :=
  List.mem_insertionSort rowLE

theorem sortRows_of_sorted {l : List EpisodeRecord} (h : List.Sorted rowLE l) :
    sortRows l = l :=
  h.insertionSort_eq

theorem mem_seriesStage {sel : List String} {l : List EpisodeRecord} {r : EpisodeRecord}
    (h : r ∈ seriesStage sel l) :
    r ∈ l ∧ (sel.isEmpty = false → sel.contains r.series = true) := by
  unfold seriesStage at h
  split_ifs at h with hb
  · exact ⟨h, fun hf => by rw [hb] at hf; cases hf⟩
  · have := List.mem_filter.mp h
    exact ⟨this.1, fun _ => this.2⟩

theorem seriesStage_eq_self {sel : List String} {l : List EpisodeRecord}
    (h : ∀ r ∈ l, sel.isEmpty = false → sel.contains r.series = true) :
    seriesStage sel l = l := by
  unfold seriesStage
  split_ifs with hb
  · rfl
  · exact List.filter_eq_self.mpr fun r hr => h r hr (Bool.not_eq_true _ ▸ hb)

theorem mem_tagsStage {sel : List String} {l : List EpisodeRecord} {r : EpisodeRecord}
    (h : r ∈ tagsStage sel l) :
    r ∈ l ∧ (sel.isEmpty = false → r.tags.any sel.contains = true) := by
  unfold tagsStage at h
  split_ifs at h with hb
  · exact ⟨h, fun hf => by rw [hb] at hf; cases hf⟩
  · have := List.mem_filter.mp h
    exact ⟨this.1, fun _ => this.2⟩

theorem tagsStage_eq_self {sel : List String} {l : List EpisodeRecord}
    (h : ∀ r ∈ l, sel.isEmpty = false → r.tags.any sel.contains = true) :
    tagsStage sel l = l := by
  unfold tagsStage
  split_ifs with hb
  · rfl
  · exact List.filter_eq_self.mpr fun r hr => h r hr (Bool.not_eq_true _ ▸ hb)

theorem mem_recencyStage {flag : Bool} {cutoff : Int} {l : List EpisodeRecord}
    {r : EpisodeRecord} (h : r ∈ recencyStage flag cutoff l) :
    r ∈ l ∧ (flag = true → passesLast30 cutoff r = true) := by
  unfold recencyStage at h
  split_ifs at h with hb
  · have := List.mem_filter.mp h
    exact ⟨this.1, fun _ => this.2⟩
  · exact ⟨h, fun hf => absurd hf hb⟩

theorem recencyStage_eq_self {flag : Bool} {cutoff : Int} {l : List EpisodeRecord}
    (h : ∀ r ∈ l, flag = true → passesLast30 cutoff r = true) :
    recencyStage flag cutoff l = l := by
  unfold recencyStage
  split_ifs with hb
  · exact List.filter_eq_self.mpr fun r hr => h r hr hb
  · rfl

theorem mem_searchStage {q : String} {l : List EpisodeRecord} {r : EpisodeRecord}
    (h : r ∈ searchStage q l) :
    r ∈ l ∧ (jsTrim q ≠ "" → matchesSearch (jsLower (jsTrim q)) r = true) := by
  unfold searchStage at h
  split_ifs at h with hb
  · exact ⟨h, fun hf => absurd hb hf⟩
  · have := List.mem_filter.mp h
    exact ⟨this.1, fun _ => this.2⟩

theorem searchStage_eq_self {q : String} {l : List EpisodeRecord}
    (h : ∀ r ∈ l, jsTrim q ≠ "" → matchesSearch (jsLower (jsTrim q)) r = true) :
    searchStage q l = l := by
  unfold searchStage
  split_ifs with hb
  · rfl
  · exact List.filter_eq_self.mpr fun r hr => h r hr hb

theorem conds_of_mem_filterStages {fs : FilterState} {cutoff : Int}
    {rows : List EpisodeRecord} {r : EpisodeRecord} (h : r ∈ filterStages fs cutoff rows) :
    r ∈ rows ∧
      (fs.selectedSeries.isEmpty = false → fs.selectedSeries.contains r.series = true) ∧
      (fs.selectedTags.isEmpty = false → r.tags.any fs.selectedTags.contains = true) ∧
      (fs.last30Only = true → passesLast30 cutoff r = true) ∧
      (jsTrim fs.search ≠ "" → matchesSearch (jsLower (jsTrim fs.search)) r = true) := by
  unfold filterStages at h
  obtain ⟨h, h4⟩ := mem_searchStage h
  obtain ⟨h, h3⟩ := mem_recencyStage h
  obtain ⟨h, h2⟩ := mem_tagsStage h
  obtain ⟨h, h1⟩ := mem_seriesStage h
  exact ⟨h, h1, h2, h3, h4⟩

theorem filterStages_sortRows_self (fs : FilterState) (cutoff : Int)
    (rows : List EpisodeRecord) :
    filterStages fs cutoff (sortRows (filterStages fs cutoff rows)) =
      sortRows (filterStages fs cutoff rows) := by
  have hall : ∀ r ∈ sortRows (filterStages fs cutoff rows),
      (fs.selectedSeries.isEmpty = false → fs.selectedSeries.contains r.series = true) ∧
      (fs.selectedTags.isEmpty = false → r.tags.any fs.selectedTags.contains = true) ∧
      (fs.last30Only = true → passesLast30 cutoff r = true) ∧
      (jsTrim fs.search ≠ "" → matchesSearch (jsLower (jsTrim fs.search)) r = true) := by
    intro r hr
    exact (conds_of_mem_filterStages (mem_sortRows.mp hr)).2
  set X := sortRows (filterStages fs cutoff rows) with hX
  show filterStages fs cutoff X = X
  unfold filterStages
  rw [seriesStage_eq_self fun r hr => (hall r hr).1,
    tagsStage_eq_self fun r hr => (hall r hr).2.1,
    recencyStage_eq_self fun r hr => (hall r hr).2.2.1,
    searchStage_eq_self fun r hr => (hall r hr).2.2.2]

/-! ### Remaining helper lemmas -/

theorem normScore_none_or_range (v : Option String) :
    normScore v = none ∨ ∃ n : Int, normScore v = some n ∧ 1 ≤ n ∧ n ≤ 5 := by
  cases h : jsNumberOpt v with
  | none => exact Or.inl (by simp [normScore, h])
  | some d =>
      have hns : normScore v =
          if (10 : Int) ^ d.scale ≤ d.num ∧ d.num ≤ 5 * 10 ^ d.scale then some (jsRound d)
          else none := by
        simp [normScore, h]
      by_cases hr : (10 : Int) ^ d.scale ≤ d.num ∧ d.num ≤ 5 * 10 ^ d.scale
      · have hp : (0 : Int) < 10 ^ d.scale := pow_pos (by norm_num) _
        have hp2 : (0 : Int) < 2 * 10 ^ d.scale := by linarith
        refine Or.inr ⟨jsRound d, by rw [hns, if_pos hr], ?_, ?_⟩
        · unfold jsRound
          rw [Int.fdiv_eq_ediv _ (le_of_lt hp2), Int.le_ediv_iff_mul_le hp2]
          linarith [hr.1]
        · unfold jsRound
          rw [Int.fdiv_eq_ediv _ (le_of_lt hp2)]
          have h6 : (2 * d.num + 10 ^ d.scale) / (2 * 10 ^ d.scale) < 6 := by
            rw [Int.ediv_lt_iff_lt_mul hp2]
            linarith [hr.2]
          omega
      · exact Or.inl (by rw [hns, if_neg hr])

theorem keepRow_iff (r : EpisodeRecord) :
    keepRow r = true ↔ (r.series ≠ "" ∨ r.title ≠ "" ∨ r.url ≠ "") := by
  have h : ∀ s : String, (s.isEmpty = false) ↔ s ≠ "" := by
    intro s
    rw [← Bool.not_eq_true]
    exact not_congr (String.isEmpty_iff s)
  simp only [keepRow, Bool.or_eq_true, Bool.not_eq_true']
  rw [h, h, h, or_assoc]

theorem msStep_selected_eq (s : MSState) (e : MSEvent) (h1 : e ≠ .clearClick)
    (h2 : e ≠ .applyClick) (h3 : e ≠ .doneClick) : (msStep s e).selected = s.selected := by
  cases e with
  | clearClick => exact absurd rfl h1
  | applyClick => exact absurd rfl h2
  | doneClick => exact absurd rfl h3
  | triggerClick => by_cases ho : s.isOpen <;> simp [msStep, ho]
  | setQuery q => by_cases ho : s.isOpen <;> simp [msStep, ho]
  | toggle i => by_cases ho : s.isOpen <;> simp [msStep, ho]
  | outsideClick => rfl
  | escapeKey => rfl

/-! ### The claims -/

/-- C1: the claim says a failed fetch (non-2xx status or network error) is
recovered by parsing the embedded fallback dataset and surfacing a non-fatal
banner. The code instead references the identifier `text` inside the `catch`
block, where it is not in scope (its `const` declaration sits inside the `try`
block), so every failure path throws a `ReferenceError` and installs neither
rows nor a banner; only the success path completes. -/
theorem c1_fetch_failure_throws_reference_error
    (parseCsv : String → List CsvRecord) (status : Nat) (body : String) :
    load parseCsv (.httpError status) = .threw "ReferenceError" ∧
      load parseCsv .networkError = .threw "ReferenceError" ∧
      load parseCsv (.success body) = .ok (normalizedRows (parseCsv body)) none :=
  ⟨rfl, rfl, rfl⟩

/-- C3 (counterexample): the claim says rows with a null parsed date sort as if
their date were the earliest possible value and hence land after every dated
row. A row dated 1969-12-31 has a negative timestamp, while a null date is
treated as timestamp 0, so the undated row sorts strictly before the dated
one even with the default (empty) filter state. -/
theorem c3_counterexample_undated_row_not_at_bottom :
    undatedAtBottom
        (filtered (searchOnly "") 0 [normalizeRow preEpochRec, normalizeRow undatedRec])
        = false ∧
      (normalizeRow preEpochRec).dateObj = some (-86400000) ∧
      (normalizeRow undatedRec).dateObj = none := by
  decide

/-- C3 (amended): for every row list and filter state, the filtered result is
a permutation of the filter-stage output sorted by the comparator order
`rowLE`: publication timestamp descending with a missing date treated as
timestamp 0 (the Unix epoch) — so undated rows land after rows dated later
than the epoch but before rows dated earlier — with ties broken by series name
ascending and then title ascending. In particular consecutive rows have
non-increasing timestamps. -/
theorem c3_filtered_sorted_date_descending (fs : FilterState) (cutoff : Int)
    (rows : List EpisodeRecord) :
    List.Sorted rowLE (filtered fs cutoff rows) ∧
      List.Perm (filtered fs cutoff rows) (filterStages fs cutoff rows) ∧
      List.Pairwise (fun a b => sortTime b ≤ sortTime a) (filtered fs cutoff rows) := by
  refine ⟨sortRows_sorted _, sortRows_perm _, ?_⟩
  refine (sortRows_sorted (filterStages fs cutoff rows)).imp ?_
  intro a b hab
  rcases hab with h | ⟨h, _⟩
  · exact le_of_lt h
  · exact le_of_eq h

/-- C4: every normalized score is either null or an integer in `[1, 5]`: the
raw value is numerically coerced, accepted only if finite and within `[1, 5]`,
then rounded; raw values `0`, `6` and `abc` normalize to null and `4.6`
normalizes to `5`. -/
theorem c4_scores_null_or_integer_one_to_five :
    (∀ rec : CsvRecord,
        (normalizeRow rec).scoreGen = none ∨
          ∃ n : Int, (normalizeRow rec).scoreGen = some n ∧ 1 ≤ n ∧ n ≤ 5) ∧
      (∀ rec : CsvRecord,
        (normalizeRow rec).scoreAdv = none ∨
          ∃ n : Int, (normalizeRow rec).scoreAdv = some n ∧ 1 ≤ n ∧ n ≤ 5) ∧
      (normalizeRow { score_general := some "0" }).scoreGen = none ∧
      (normalizeRow { score_general := some "6" }).scoreGen = none ∧
      (normalizeRow { score_general := some "abc" }).scoreGen = none ∧
      (normalizeRow { score_general := some "4.6" }).scoreGen = some 5 := by
  refine ⟨fun rec => ?_, fun rec => ?_, by decide, by decide, by decide, by decide⟩
  · exact normScore_none_or_range (coalesce [rec.score_general, rec.general, rec.general_score])
  · exact normScore_none_or_range (coalesce [rec.score_advanced, rec.advanced, rec.advanced_score])

/-- C5: a normalized record is retained in the row list exactly when at least
one of series, title or url is non-empty after trimming; rows with all three
empty are excluded. -/
theorem c5_ghost_rows_eliminated (recs : List CsvRecord) (r : EpisodeRecord) :
    r ∈ normalizedRows recs ↔
      (∃ rec ∈ recs, normalizeRow rec = r) ∧
        (r.series ≠ "" ∨ r.title ≠ "" ∨ r.url ≠ "") := by
  unfold normalizedRows
  rw [List.mem_filter, List.mem_map, keepRow_iff]

/-- C6: applying the complete filter-and-sort chain to its own output, with the
same filter state and cutoff, returns that output unchanged. -/
theorem c6_filter_chain_idempotent (fs : FilterState) (cutoff : Int)
    (rows : List EpisodeRecord) :
    filtered fs cutoff (filtered fs cutoff rows) = filtered fs cutoff rows := by
  unfold filtered
  rw [filterStages_sortRows_self, sortRows_of_sorted (sortRows_sorted _)]

/-- C9: a max-results value of 0 disables truncation exactly as the explicit
"All" value -1 does, and truncation to the first `maxResults` elements happens
for positive caps. -/
theorem c9_max_results_zero_like_all (l : List EpisodeRecord) :
    limited 0 l = l ∧ limited (-1) l = l ∧
      ∀ m : Int, 0 < m → limited m l = l.take m.toNat := by
  refine ⟨by simp [limited], by simp [limited], ?_⟩
  intro m hm
  unfold limited
  rw [if_neg (by omega : ¬(m = 0 ∨ m = -1)), if_pos (le_of_lt hm)]

/-- Witness for C9 at a concrete cap and row list. -/
theorem c9_max_results_zero_like_all_witness :
    (0 : Int) < 2 ∧ limited 2 sampleRows = sampleRows.take (2 : Int).toNat :=
  ⟨by decide, (c9_max_results_zero_like_all sampleRows).2.2 2 (by decide)⟩

/-- C2: the committed selection of a `MultiSelect` changes only through the
Clear, Apply or Done actions, never by toggling alone; closing via outside
click or Escape discards provisional edits, so opening, toggling two
initially-unselected options and dismissing leaves the committed selection as
it was, while the same sequence ending in Done (from the widget's initial
empty committed selection) commits exactly the two toggled options. -/
theorem c2_multiselect_commit_protocol :
    (∀ (s : MSState) (e : MSEvent), (msStep s e).selected ≠ s.selected →
        e = .clearClick ∨ e = .applyClick ∨ e = .doneClick) ∧
      (∀ (sel : List String) (q : String) (ts : List String) (a b : String),
        (msRun ⟨false, q, ts, sel⟩
            [.triggerClick, .toggle a, .toggle b, .outsideClick]).selected = sel) ∧
      (∀ (sel : List String) (q : String) (ts : List String) (a b : String),
        (msRun ⟨false, q, ts, sel⟩
            [.triggerClick, .toggle a, .toggle b, .escapeKey]).selected = sel) ∧
      (∀ a b : String, a ≠ b →
        (msRun (msInitial []) [.triggerClick, .toggle a, .toggle b, .doneClick]).selected
          = [a, b]) := by
  refine ⟨?_, ?_, ?_, ?_⟩
  · intro s e hne
    by_contra hc
    push_neg at hc
    exact hne (msStep_selected_eq s e hc.1 hc.2.1 hc.2.2)
  · intro sel q ts a b
    rfl
  · intro sel q ts a b
    rfl
  · intro a b hab
    have hba : (b == a) = false := beq_eq_false_iff_ne.mpr (Ne.symm hab)
    have hab2 : (a == b) = false := beq_eq_false_iff_ne.mpr hab
    simp [msRun, msStep, msInitial, jsSetToggle, dedupFirst, dedupFirstAux,
      List.contains, hba, hab2]
    intro h
    exact absurd h (Ne.symm hab)

/-- Witness for C2 at concrete states and options. -/
theorem c2_multiselect_commit_protocol_witness :
    ((msStep ⟨true, "", ["x"], []⟩ .applyClick).selected ≠ ([] : List String) ∧
        (MSEvent.applyClick = .clearClick ∨ MSEvent.applyClick = .applyClick ∨
          MSEvent.applyClick = .doneClick)) ∧
      ("x" ≠ "y" ∧
        (msRun (msInitial []) [.triggerClick, .toggle "x", .toggle "y",
            .doneClick]).selected = ["x", "y"]) :=
  ⟨⟨by decide,
      c2_multiselect_commit_protocol.1 ⟨true, "", ["x"], []⟩ .applyClick (by decide)⟩,
    ⟨by decide, c2_multiselect_commit_protocol.2.2.2 "x" "y" (by decide)⟩⟩

/-- C7: for a query that is non-empty after trimming, a row survives the
free-text stage exactly when its title, series, comma-joined tags or summary
contains the trimmed, lowercased query as a substring; and searching
"insurance" over the normalized fallback dataset returns exactly the Climate
One row, for every cutoff. -/
theorem c7_free_text_search (q : String) (l : List EpisodeRecord) (r : EpisodeRecord)
    (hq : jsTrim q ≠ "") :
    (r ∈ searchStage q l ↔
        r ∈ l ∧
          (strIncludes (jsLower r.title) (jsLower (jsTrim q)) ||
            strIncludes (jsLower r.series) (jsLower (jsTrim q)) ||
            strIncludes (jsLower (joinComma r.tags)) (jsLower (jsTrim q)) ||
            strIncludes (jsLower r.summary) (jsLower (jsTrim q))) = true) ∧
      (∀ cutoff : Int,
        filtered (searchOnly "insurance") cutoff sampleRows = [normalizeRow sampleRec2]) := by
  constructor
  · unfold searchStage
    rw [if_neg hq, List.mem_filter]
    exact Iff.rfl
  · intro cutoff
    show sortRows (searchStage "insurance" sampleRows) = [normalizeRow sampleRec2]
    decide

/-- Witness for C7 at the fallback dataset and the query "insurance". -/
theorem c7_free_text_search_witness :
    jsTrim "insurance" ≠ "" ∧
      (normalizeRow sampleRec2 ∈ searchStage "insurance" sampleRows ↔
        normalizeRow sampleRec2 ∈ sampleRows ∧
          (strIncludes (jsLower (normalizeRow sampleRec2).title)
              (jsLower (jsTrim "insurance")) ||
            strIncludes (jsLower (normalizeRow sampleRec2).series)
              (jsLower (jsTrim "insurance")) ||
            strIncludes (jsLower (joinComma (normalizeRow sampleRec2).tags))
              (jsLower (jsTrim "insurance")) ||
            strIncludes (jsLower (normalizeRow sampleRec2).summary)
              (jsLower (jsTrim "insurance"))) = true) :=
  ⟨by decide,
    (c7_free_text_search "insurance" sampleRows (normalizeRow sampleRec2) (by decide)).1⟩

/-- C8: the row normalizer is total — each input record yields exactly one
`EpisodeRecord` — and failed coercions degrade instead of erroring: an
all-missing record normalizes to empty strings, an empty tag list and null
scores and date; a score whose coercion is `NaN` becomes null; an unparseable
date becomes null. -/
theorem c8_normalizer_total_and_defensive :
    (∀ rec : CsvRecord, ∃! out : EpisodeRecord, normalizeRow rec = out) ∧
      normalizeRow {} =
        { series := "", title := "", dateRaw := "", dateObj := none, tags := [],
          scoreGen := none, scoreAdv := none, summary := "", summaryGeneral := "",
          summaryAdvanced := "", url := "" } ∧
      (∀ rec : CsvRecord,
        jsNumberOpt (coalesce [rec.score_general, rec.general, rec.general_score]) = none →
          (normalizeRow rec).scoreGen = none) ∧
      (∀ rec : CsvRecord,
        jsNumberOpt (coalesce [rec.score_advanced, rec.advanced, rec.advanced_score]) = none →
          (normalizeRow rec).scoreAdv = none) ∧
      (∀ rec : CsvRecord,
        parseDateSafe (jsTrim (orChain [rec.pub_date_iso, rec.date, rec.published])) = none →
          (normalizeRow rec).dateObj = none) := by
  refine ⟨fun rec => ⟨normalizeRow rec, rfl, fun y hy => hy.symm⟩, by decide, ?_, ?_, ?_⟩
  · intro rec h
    show normScore (coalesce [rec.score_general, rec.general, rec.general_score]) = none
    simp [normScore, h]
  · intro rec h
    show normScore (coalesce [rec.score_advanced, rec.advanced, rec.advanced_score]) = none
    simp [normScore, h]
  · intro rec h
    exact h

/-- Witness for C8 at a record with non-numeric scores and an unparseable
date. -/
theorem c8_normalizer_total_and_defensive_witness :
    (jsNumberOpt (coalesce [badRec.score_general, badRec.general, badRec.general_score])
          = none ∧
        (normalizeRow badRec).scoreGen = none) ∧
      (jsNumberOpt (coalesce [badRec.score_advanced, badRec.advanced, badRec.advanced_score])
          = none ∧
        (normalizeRow badRec).scoreAdv = none) ∧
      (parseDateSafe (jsTrim (orChain [badRec.pub_date_iso, badRec.date, badRec.published]))
          = none ∧
        (normalizeRow badRec).dateObj = none) :=
  ⟨⟨by decide, c8_normalizer_total_and_defensive.2.2.1 badRec (by decide)⟩,
    ⟨by decide, c8_normalizer_total_and_defensive.2.2.2.1 badRec (by decide)⟩,
    ⟨by decide, c8_normalizer_total_and_defensive.2.2.2.2 badRec (by decide)⟩⟩

/-- C10: score aliases resolve with `??` while text aliases resolve with `||`:
a present-but-empty first score key pins the score to `Number("") = 0`, hence
null, even when a later alias holds a valid score, whereas a present-but-empty
first series key falls through to the next alias. -/
theorem c10_empty_string_alias_contrast :
    (∀ rec : CsvRecord, rec.score_general = some "" → (normalizeRow rec).scoreGen = none) ∧
      (∀ (rec : CsvRecord) (s : String), rec.series_name = some "" → rec.Series = some s →
        s ≠ "" → (normalizeRow rec).series = jsTrim s) ∧
      (normalizeRow emptyThenValidScoreRec).scoreGen = none ∧
      (normalizeRow validAliasScoreRec).scoreGen = some 4 ∧
      (normalizeRow emptyThenValidSeriesRec).series = "Volts" := by
  refine ⟨?_, ?_, by decide, by decide, by decide⟩
  · intro rec h
    show normScore (coalesce [rec.score_general, rec.general, rec.general_score]) = none
    rw [h]
    rfl
  · intro rec s h1 h2 hs
    show jsTrim (orChain [rec.series_name, rec.Series, rec.series]) = jsTrim s
    rw [h1, h2]
    show jsTrim (orChain [some s, rec.series]) = jsTrim s
    unfold orChain
    rw [if_neg hs]

/-- Witness for C10 at the concrete alias records. -/
theorem c10_empty_string_alias_contrast_witness :
    (emptyThenValidScoreRec.score_general = some "" ∧
        (normalizeRow emptyThenValidScoreRec).scoreGen = none) ∧
      (emptyThenValidSeriesRec.series_name = some "" ∧
        emptyThenValidSeriesRec.Series = some "Volts" ∧ "Volts" ≠ "" ∧
        (normalizeRow emptyThenValidSeriesRec).series = jsTrim "Volts") :=
  ⟨⟨by decide, c10_empty_string_alias_contrast.1 emptyThenValidScoreRec (by decide)⟩,
    ⟨by decide, by decide, by decide,
      c10_empty_string_alias_contrast.2.1 emptyThenValidSeriesRec "Volts" (by decide)
        (by decide) (by decide)⟩⟩

end ClimatePodcasts
